import Mathlib

/-!
Shallow embedding of the legal-document structural splitter and the Chinese
numeral converter of this repository
(`app/data_indexing/file/document_splitter/legal_splitter.py` and
`app/data_indexing/file/document_splitter/utils.py`), together with theorems
settling the specification claims about them.

Python strings are modelled as Lean `String` (a list of Unicode code points,
matching Python's per-code-point semantics for indexing, slicing and
iteration).  Python's `re` patterns used by the splitter are all anchored at
the string start and are simple enough to be modelled exactly by prefix
scanners.  The only fallible operation in the splitter is the unguarded list
indexing `lines[temp_index]` in `read_with_article_pattern`; the embedding
returns `Except SplitErr` and reports it as `SplitErr.indexError`.  All
loops are written with an explicit fuel argument so that every definition is
structurally recursive and kernel-evaluable; fuel is always instantiated
large enough (a lemma below shows fuel exhaustion is unreachable at the
actual call sites).
-/

/-- Characters matched by Python's `str.isspace` / `re` `\s` on `str`
(Unicode whitespace).  Used to model `str.strip()` and the `\s*` prefixes of
the marker regexes. -/
def isPySpace (c : Char) : Bool :=
  [0x9, 0xA, 0xB, 0xC, 0xD, 0x1C, 0x1D, 0x1E, 0x1F, 0x20, 0x85, 0xA0,
   0x1680, 0x2000, 0x2001, 0x2002, 0x2003, 0x2004, 0x2005, 0x2006, 0x2007,
   0x2008, 0x2009, 0x200A, 0x2028, 0x2029, 0x202F, 0x205F, 0x3000].contains c.toNat

/-- Line-break characters recognized by Python's `str.splitlines`
(`\r\n` is additionally treated as a single break by `pySplitlines`). -/
def isLineBreakChar (c : Char) : Bool :=
  [0xA, 0xB, 0xC, 0xD, 0x1C, 0x1D, 0x1E, 0x85, 0x2028, 0x2029].contains c.toNat

/-- Helper for `pySplitlines`: splits a character list at line breaks,
treating `\r\n` as one break; a trailing break produces no empty final
line, exactly as Python's `str.splitlines`. -/
def splitlinesAux : List Char → List Char → List (List Char)
  | [], acc => if acc.isEmpty then [] else [acc.reverse]
  | '\r' :: '\n' :: cs, acc => acc.reverse :: splitlinesAux cs []
  | c :: cs, acc =>
    if isLineBreakChar c then acc.reverse :: splitlinesAux cs []
    else splitlinesAux cs (c :: acc)

/-- Model of Python `str.splitlines()`. -/
def pySplitlines (s : String) : List String :=
  (splitlinesAux s.data []).map fun l => ⟨l⟩

/-- Model of Python `str.strip()`: remove leading and trailing whitespace. -/
def pyStrip (s : String) : String :=
  ⟨((s.data.dropWhile isPySpace).reverse.dropWhile isPySpace).reverse⟩

/-- The zero-width characters removed by `ZERO_WIDTH_PATTERN`
(`[​‌‍﻿]`). -/
def isZeroWidth (c : Char) : Bool :=
  [0x200B, 0x200C, 0x200D, 0xFEFF].contains c.toNat

/-- `clean_and_check_blank` from `legal_splitter.py`: true when the string
is blank after stripping, once zero-width characters are removed. -/
def clean_and_check_blank (s : String) : Bool :=
  if s = "" || pyStrip s = "" then true
  else
    let s2 := if s.data.any isZeroWidth then (⟨s.data.filter fun c => !isZeroWidth c⟩ : String) else s
    pyStrip s2 = ""

/-- The Chinese numeral glyphs admitted by the marker regexes
(`NUM_STR = "零一二三四五六七八九十百千"`). -/
def isNumChar (c : Char) : Bool :=
  ['零', '一', '二', '三', '四', '五', '六', '七', '八', '九', '十', '百', '千'].contains c

/-- `CHINESE_NUM_MAP` from `utils.py`: value of each recognized numeral
glyph, `none` for any other character. -/
def chineseNumValue (c : Char) : Option Nat :=
  match c with
  | '零' => some 0
  | '一' => some 1
  | '二' => some 2
  | '三' => some 3
  | '四' => some 4
  | '五' => some 5
  | '六' => some 6
  | '七' => some 7
  | '八' => some 8
  | '九' => some 9
  | '十' => some 10
  | '百' => some 100
  | '千' => some 1000
  | '万' => some 10000
  | '亿' => some 100000000
  | _ => none

/-- `is_chinese_number` from `utils.py`:
`all(char in CHINESE_NUM_MAP for char in s)`. -/
def is_chinese_number (s : String) : Bool :=
  s.data.all fun c => (chineseNumValue c).isSome

/-- The `while index < len(values)` loop of `convert_chinese_to_number`.
`fuel` only bounds the recursion; it is called with `values.length`, which
is exactly the number of iterations the Python loop performs. -/
def convLoop (values : List Nat) : Nat → Nat → Nat → Bool → Nat
  | fuel + 1, index, result, skipNext =>
    if index < values.length then
      let current := values.getD index 0
      if skipNext then
        convLoop values fuel (index + 1) result false
      else if 10 ≤ current then
        if index = 0 then
          convLoop values fuel (index + 1) (result + current) false
        else
          let prev := values.getD (index - 1) 0
          if prev < 10 then
            convLoop values fuel (index + 1) (result + prev * current) false
          else
            convLoop values fuel (index + 1) (result + current) false
      else
        if index + 1 < values.length ∧ 10 ≤ values.getD (index + 1) 0 then
          convLoop values fuel (index + 1) (result + current * values.getD (index + 1) 0) true
        else
          convLoop values fuel (index + 1) (result + current) false
    else result
  | 0, _, result, _ => result

/-- `convert_chinese_to_number` from `utils.py`: `none` models Python's
`None` return for the empty string or a string with an unrecognized
character; otherwise the greedy single-pass conversion result. -/
def convert_chinese_to_number (s : String) : Option Nat :=
  if s = "" || !is_chinese_number s then none
  else
    let values := s.data.map fun c => (chineseNumValue c).getD 0
    some (convLoop values values.length 0 0 false)

/-- Shared model of `PART_REGEX` / `CHAPTER_REGEX` / `SECTION_REGEX`
(`^\s*第([零一二三四五六七八九十百千]+)X+.*` with `X` the marker glyph),
applied with `re.match`.  Returns the capture group (the maximal run of
numeral glyphs after `第`) on success.  The trailing `X+.*` succeeds
exactly when the character following the numeral run is the marker. -/
def matchCore (space : Char → Bool) (marker : Char) (s : String) : Option String :=
  match s.data.dropWhile space with
  | '第' :: rest =>
    let num := rest.takeWhile isNumChar
    if num.isEmpty then none
    else
      match rest.dropWhile isNumChar with
      | c :: _ => if c = marker then some ⟨num⟩ else none
      | [] => none
  | _ => none

/-- The Part/Chapter/Section pattern with its `\s*` leading class. -/
def matchLevel (marker : Char) (s : String) : Option String :=
  matchCore isPySpace marker s

/-- `PART_REGEX.match(line)`, returning the numeral capture group. -/
def part_match (s : String) : Option String := matchLevel '编' s

/-- `CHAPTER_REGEX.match(line)`, returning the numeral capture group. -/
def chapter_match (s : String) : Option String := matchLevel '章' s

/-- `SECTION_REGEX.match(line)`, returning the numeral capture group. -/
def section_match (s : String) : Option String := matchLevel '节' s

/-- Leading characters tolerated by `ARTICLE_REGEX`'s `(\s|　| )*` prefix:
`\s`, U+3000 and U+00A0 (the latter two are already in `\s`). -/
def isArticleSpace (c : Char) : Bool :=
  isPySpace c || c = '　' || c = ' '

/-- `ARTICLE_REGEX` (`^(\s|　| )*第([零一二三四五六七八九十百千]+)条.*`),
returning the second capture group (the numeral). -/
def article_match (s : String) : Option String :=
  matchCore isArticleSpace '条' s

/-- `none_match(text, all_patterns)` from `legal_splitter.py`, with the
pattern list fixed to `[PART_REGEX, CHAPTER_REGEX, SECTION_REGEX,
ARTICLE_REGEX]` as at every call site. -/
def none_match (s : String) : Bool :=
  (part_match s).isNone && (chapter_match s).isNone &&
  (section_match s).isNone && (article_match s).isNone

/-- The body of `has_article_pattern` after `splitlines`: keep the
(unstripped) lines whose strip is non-blank, and test whether any matches
`ARTICLE_REGEX` (`search` of an anchored pattern equals `match`). -/
def hasArticleLines (lines : List String) : Bool :=
  (lines.filter fun l => pyStrip l != "").any fun l => (article_match l).isSome

/-- `has_article_pattern` from `legal_splitter.py`. -/
def has_article_pattern (text : String) : Bool :=
  hasArticleLines (pySplitlines text)

/-- A `TextNode` as built by the splitter: the text plus the `extra_info`
fields.  `sect` is `section` in the source (a Lean keyword).  Nodes built
by `read_without_article_pattern` carry no `extra_info`; all their
metadata fields are `none`. -/
structure TextUnit where
  text : String
  part : Option Nat
  chapter : Option Nat
  sect : Option Nat
  article : Option Nat
  content_type : Option Nat
deriving Repr, DecidableEq

/-- The sticky scan state of `read_with_article_pattern`:
the local variables `part, chapter, section, article`. -/
structure SState where
  part : Option Nat
  chapter : Option Nat
  sect : Option Nat
  article : Option Nat
deriving Repr, DecidableEq

/-- Initial scan state: `part, chapter, section, article = None, None,
None, None`. -/
def initState : SState := SState.mk none none none none

/-- `line.startswith("　　")` (two U+3000 characters). -/
def startsWithIndent (s : String) : Bool :=
  match s.data with
  | c1 :: c2 :: _ => c1 = '　' && c2 = '　'
  | _ => false

/-- `if line.startswith("　　"): line = line[2:]` — Python slicing is per
code point, modelled by dropping two characters. -/
def stripIndent (s : String) : String :=
  if startsWithIndent s then ⟨s.data.drop 2⟩ else s

/-- `line.endswith(":")` (ASCII colon). -/
def endsWithColon (s : String) : Bool :=
  s.data.getLast? = some ':'

/-- The continuation-consuming `while` loop of the Article branch.
`tempText` is `lines[tempIndex]` and `rest` is `lines[tempIndex+1:]`; the
pair returned is (`''.join(_line)` so far, final `temp_index`), matching
the Python loop that appends `'\n'` and the (indent-stripped) line, then
advances, breaking when the list is exhausted. -/
def consumeGo : String → List String → String → Nat → String × Nat
  | tempText, rest, acc, tempIndex =>
    if none_match tempText then
      let t := stripIndent tempText
      let acc2 := acc ++ "\n" ++ t
      match rest with
      | next :: rest2 => consumeGo next rest2 acc2 (tempIndex + 1)
      | [] => (acc2, tempIndex + 1)
    else (acc, tempIndex)

/-- Failure of the splitter scan: `indexError` models the uncaught Python
`IndexError` from the unguarded read `temp_text = lines[temp_index]`;
`fuelExhausted` is the out-of-fuel marker, unreachable at the actual call
sites (see `loopA_no_fuel_error`). -/
inductive SplitErr where
  | indexError
  | fuelExhausted
deriving Repr, DecidableEq

/-- The main `while i < len(lines)` scan of `read_with_article_pattern`,
over the pre-stripped non-blank `lines`.  One iteration per emitted
`TextNode` (blank lines are skipped); the Article branch with a multi-line
body advances `i` to the final `temp_index` of the continuation loop.
`fuel` bounds the iteration count; `lines.length` always suffices. -/
def loopA (lines : List String) : Nat → Nat → SState → Except SplitErr (List TextUnit)
  | 0, i, _ =>
    if i < lines.length then Except.error SplitErr.fuelExhausted else Except.ok []
  | fuel + 1, i, st =>
    if i < lines.length then
      let line := lines.getD i ""
      if clean_and_check_blank line then loopA lines fuel (i + 1) st
      else
        match part_match line with
        | some num =>
          let st2 := SState.mk (convert_chinese_to_number num) st.chapter st.sect st.article
          (loopA lines fuel (i + 1) st2).map
            (TextUnit.mk line st2.part st2.chapter st2.sect st2.article (some 1) :: ·)
        | none =>
        match chapter_match line with
        | some num =>
          let st2 := SState.mk st.part (convert_chinese_to_number num) st.sect st.article
          (loopA lines fuel (i + 1) st2).map
            (TextUnit.mk line st2.part st2.chapter st2.sect st2.article (some 2) :: ·)
        | none =>
        match section_match line with
        | some num =>
          let st2 := SState.mk st.part st.chapter (convert_chinese_to_number num) st.article
          (loopA lines fuel (i + 1) st2).map
            (TextUnit.mk line st2.part st2.chapter st2.sect st2.article (some 3) :: ·)
        | none =>
        match article_match line with
        | some num =>
          let st2 := SState.mk st.part st.chapter st.sect (convert_chinese_to_number num)
          let hasMore := endsWithColon line ||
            (decide (i + 1 < lines.length) && none_match (lines.getD (i + 1) ""))
          if hasMore then
            if i + 1 < lines.length then
              let line2 := stripIndent line
              let r := consumeGo (lines.getD (i + 1) "") (lines.drop (i + 2)) line2 (i + 1)
              let t := if r.1 = "" then line2 else r.1
              (loopA lines fuel r.2 st2).map
                (TextUnit.mk t st2.part st2.chapter st2.sect st2.article (some 4) :: ·)
            else Except.error SplitErr.indexError
          else
            (loopA lines fuel (i + 1) st2).map
              (TextUnit.mk line st2.part st2.chapter st2.sect st2.article (some 4) :: ·)
        | none =>
          (loopA lines fuel (i + 1) st).map
            (TextUnit.mk line st.part st.chapter st.sect st.article none :: ·)
    else Except.ok []

/-- `read_with_article_pattern` (Algorithm A): strip lines, drop blank
ones, then run the scan from the all-`none` state. -/
def read_with_article_pattern (text : String) : Except SplitErr (List TextUnit) :=
  let lines := (pySplitlines text).filterMap fun l =>
    let t := pyStrip l
    if t = "" then none else some t
  loopA lines lines.length 0 initState

/-- `read_without_article_pattern` (Algorithm B): one `TextNode` per
non-blank stripped line, with no `extra_info`. -/
def read_without_article_pattern (text : String) : List TextUnit :=
  ((pySplitlines text).filterMap fun l =>
    let t := pyStrip l
    if t = "" then none else some t).map
    fun l => TextUnit.mk l none none none none none

/-- An input node for `LegalSplitter._parse_nodes`: either a
`llama_index` `Document` (exposing its text) or some other `BaseNode`
subclass, which the splitter ignores. -/
inductive BaseNode where
  | document (text : String)
  | other
deriving Repr, DecidableEq

/-- The text of a node when it is a `Document` (`isinstance(node,
Document)`), else `none`. -/
def documentText : BaseNode → Option String
  | BaseNode.document text => some text
  | BaseNode.other => none

/-- The per-document dispatch of `_parse_nodes`: Algorithm A when
`has_article_pattern` holds, Algorithm B otherwise. -/
def dispatchDocument (text : String) : Except SplitErr (List TextUnit) :=
  if has_article_pattern text then read_with_article_pattern text
  else Except.ok (read_without_article_pattern text)

/-- `LegalSplitter._parse_nodes`: walk the nodes in order, extending the
result with each `Document`'s split; a raised error aborts the whole
call, as an uncaught Python exception would. -/
def _parse_nodes : List BaseNode → Except SplitErr (List TextUnit)
  | [] => Except.ok []
  | BaseNode.document text :: rest =>
    if has_article_pattern text then
      match read_with_article_pattern text with
      | Except.error e => Except.error e
      | Except.ok units =>
        match _parse_nodes rest with
        | Except.error e => Except.error e
        | Except.ok restUnits => Except.ok (units ++ restUnits)
    else
      match _parse_nodes rest with
      | Except.error e => Except.error e
      | Except.ok restUnits => Except.ok (read_without_article_pattern text ++ restUnits)
  | BaseNode.other :: rest => _parse_nodes rest

/-- The stickiness relation between consecutively emitted units (with a
virtual unit for the initial state): each of the four structural fields is
carried over unchanged unless this unit is the corresponding marker
(`content_type` 1 = Part, 2 = Chapter, 3 = Section, 4 = Article), and a
set (`some`) field never becomes `none`. -/
def stickyRel (u v : TextUnit) : Prop :=
  (v.part = u.part ∨ v.content_type = some 1) ∧ (u.part.isSome → v.part.isSome) ∧
  (v.chapter = u.chapter ∨ v.content_type = some 2) ∧ (u.chapter.isSome → v.chapter.isSome) ∧
  (v.sect = u.sect ∨ v.content_type = some 3) ∧ (u.sect.isSome → v.sect.isSome) ∧
  (v.article = u.article ∨ v.content_type = some 4) ∧ (u.article.isSome → v.article.isSome)

/-- A virtual unit exposing a scan state's four structural fields, used to
anchor the stickiness chain. -/
def stateUnit (st : SState) : TextUnit :=
  TextUnit.mk "" st.part st.chapter st.sect st.article none

/-! ## Claim theorems -/

/-- Claim C1 (code bug evidence): on the single-line document `第一条:` —
an article-marker line, ending with an ASCII colon, as the final line —
`read_with_article_pattern` raises rather than returning a unit list: the
`has_more` test succeeds on the colon alone, and the unguarded read
`temp_text = lines[temp_index]` then indexes one past the end of `lines`.
This contradicts the spec's promise that Algorithm A degrades gracefully
on any well-formed UTF-8 text. -/
theorem c1_final_colon_article_raises_index_error :
    read_with_article_pattern "第一条:" = Except.error SplitErr.indexError := by
  rfl

/-- Claim C2: the numeral converter maps every entry of the reference
table to its stated value. -/
theorem c2_numeral_table :
    convert_chinese_to_number "一" = some 1 ∧
    convert_chinese_to_number "十" = some 10 ∧
    convert_chinese_to_number "十一" = some 11 ∧
    convert_chinese_to_number "二十" = some 20 ∧
    convert_chinese_to_number "二十一" = some 21 ∧
    convert_chinese_to_number "一百" = some 100 ∧
    convert_chinese_to_number "三百二十一" = some 321 ∧
    convert_chinese_to_number "一千零一" = some 1001 ∧
    convert_chinese_to_number "一万" = some 10000 := by
  refine ⟨rfl, rfl, rfl, rfl, rfl, rfl, rfl, rfl, rfl⟩

/-- Claim C5: on the four-line document `第一条：` / `这是第一条的内容` /
`继续内容` / `第二条 独立内容`, Algorithm A emits exactly two units: the
first three lines joined with explicit newlines (the full-width colon does
not end the line with `:`, but the following non-marker line triggers the
continuation consumption), then the final article line alone. -/
theorem c5_multiline_continuation :
    read_with_article_pattern "第一条：\n这是第一条的内容\n继续内容\n第二条 独立内容" =
      Except.ok
        [TextUnit.mk "第一条：\n这是第一条的内容\n继续内容" none none none (some 1) (some 4),
         TextUnit.mk "第二条 独立内容" none none none (some 2) (some 4)] := by
  rfl

/-- Claim C6 counterexample: after the chapter marker `第一章 总论` set
`content_type = 2`, the directly-emitted non-marker line `你好` is emitted
with `content_type = none` — the per-iteration `_content_type = None`
reset — not with the previously set value `some 2`. -/
theorem c6_counterexample :
    (read_with_article_pattern "第一章 总论\n你好").map (List.map TextUnit.content_type) =
      Except.ok [some 2, none] := by
  rfl

/-- Claim C7 counterexample: `is_chinese_number` applied to the empty
string returns `true` (Python's `all` over an empty iterable), not
`false` as the claim states. -/
theorem c7_counterexample : is_chinese_number "" = true := by
  rfl

/-- Claim C7 (amended): `is_chinese_number s` is true iff every character
of `s` is a recognized numeral glyph; on the empty string this is
vacuously true, so it returns `true`, not `false`. -/
theorem c7_is_chinese_number_amended :
    (∀ s : String, is_chinese_number s = true ↔ ∀ c ∈ s.data, (chineseNumValue c).isSome) ∧
    is_chinese_number "" = true := by
  refine ⟨fun s => ?_, rfl⟩
  simp [is_chinese_number, List.all_eq_true]

/-- Claim C7 witness: the amended theorem applied to `十一`, whose
characters are all recognized glyphs. -/
theorem c7_witness : is_chinese_number "十一" = true :=
  (c7_is_chinese_number_amended.1 "十一").mpr (by decide)

/-- Claim C8 counterexample: a line consisting solely of U+200B is NOT
excluded from the output everywhere: Algorithm B emits it verbatim as its
own unit (its line filter only drops whitespace-blank lines and never
strips zero-width characters), and Algorithm A consumes it verbatim into
an article body when it appears as continuation text. -/
theorem c8_counterexample :
    read_without_article_pattern "​" =
      [TextUnit.mk "​" none none none none none] ∧
    read_with_article_pattern "第一条 甲\n​\n乙" =
      Except.ok [TextUnit.mk "第一条 甲\n​\n乙" none none none (some 1) (some 4)] := by
  exact ⟨rfl, rfl⟩

/-- Claim C3: the converter yields `none` (Python `None`, the
`InvalidInput` signal) exactly when the string is empty or contains a
character outside the recognized glyph set; any other string converts to
an integer. -/
theorem c3_convert_none_iff_invalid (s : String) :
    (convert_chinese_to_number s = none ↔ s = "" ∨ ∃ c ∈ s.data, chineseNumValue c = none) ∧
    (convert_chinese_to_number s ≠ none → ∃ n, convert_chinese_to_number s = some n) := by
  constructor
  · have hiff : (is_chinese_number s = false) ↔ ∃ c ∈ s.data, chineseNumValue c = none := by
      rw [← Bool.not_eq_true, is_chinese_number]
      simp [List.all_eq_true, Option.not_isSome_iff_eq_none]
    by_cases hs : s = ""
    · simp [convert_chinese_to_number, hs]
    · by_cases hn : is_chinese_number s
      · have : ¬ ∃ c ∈ s.data, chineseNumValue c = none := by
          rw [← hiff]; simp [hn]
        simp [convert_chinese_to_number, hs, hn, this]
      · have h1 : is_chinese_number s = false := by simpa using hn
        have h2 := hiff.mp h1
        simp [convert_chinese_to_number, hs, h1, h2]
  · intro h
    cases hcv : convert_chinese_to_number s with
    | none => exact absurd hcv h
    | some n => exact ⟨n, rfl⟩

/-- Claim C3 witness: the theorem applied at `三百二十一`, a string of
recognized glyphs, yields an integer. -/
theorem c3_witness : ∃ n, convert_chinese_to_number "三百二十一" = some n :=
  (c3_convert_none_iff_invalid "三百二十一").2 (by decide)

/-- Claim C9: `has_article_pattern` is true iff some non-blank line of the
text matches the Article pattern, and its line-level body is invariant
under any permutation of the lines. -/
theorem c9_detection_and_permutation :
    (∀ text : String, has_article_pattern text = true ↔
      ∃ l ∈ pySplitlines text, pyStrip l ≠ "" ∧ (article_match l).isSome = true) ∧
    (∀ l1 l2 : List String, l1.Perm l2 → hasArticleLines l1 = hasArticleLines l2) := by
  have h1 : ∀ l : List String, hasArticleLines l = true ↔
      ∃ x ∈ l, pyStrip x ≠ "" ∧ (article_match x).isSome = true := by
    intro l
    simp only [hasArticleLines, List.any_eq_true, List.mem_filter, bne_iff_ne]
    constructor
    · rintro ⟨x, ⟨hx, hne⟩, hsome⟩
      exact ⟨x, hx, hne, hsome⟩
    · rintro ⟨x, hx, hne, hsome⟩
      exact ⟨x, ⟨hx, hne⟩, hsome⟩
  constructor
  · intro text
    exact h1 (pySplitlines text)
  · intro l1 l2 hp
    have hiff : hasArticleLines l1 = true ↔ hasArticleLines l2 = true := by
      rw [h1 l1, h1 l2]
      constructor
      · rintro ⟨x, hx, h⟩; exact ⟨x, hp.mem_iff.mp hx, h⟩
      · rintro ⟨x, hx, h⟩; exact ⟨x, hp.mem_iff.mpr hx, h⟩
    cases hA : hasArticleLines l1 <;> cases hB : hasArticleLines l2 <;> simp_all

/-- Claim C9 witness: the permutation part applied to a two-line swap. -/
theorem c9_witness : hasArticleLines ["甲", "第一条 乙"] = hasArticleLines ["第一条 乙", "甲"] :=
  c9_detection_and_permutation.2 ["甲", "第一条 乙"] ["第一条 乙", "甲"]
    (List.Perm.swap "第一条 乙" "甲" [])

/-- Bind on an `Except.ok` applies the continuation. -/
theorem except_bind_ok {ε : Type u} {α β : Type v} (a : α) (k : α → Except ε β) :
    (Except.ok a >>= k) = k a := rfl

/-- Bind on an `Except.error` propagates the error. -/
theorem except_bind_error {ε : Type u} {α β : Type v} (e : ε) (k : α → Except ε β) :
    ((Except.error e : Except ε α) >>= k) = Except.error e := rfl

/-- `Except.map` on an `Except.ok`. -/
theorem except_map_ok {ε : Type u} {α β : Type v} (a : α) (f : α → β) :
    (Except.ok a : Except ε α).map f = Except.ok (f a) := rfl

/-- `Except.map` on an `Except.error`. -/
theorem except_map_error {ε : Type u} {α β : Type v} (e : ε) (f : α → β) :
    (Except.error e : Except ε α).map f = Except.error e := rfl

/-- `pure` in the `Except` monad is `Except.ok`. -/
theorem except_pure_eq {ε : Type u} {α : Type v} (a : α) :
    (pure a : Except ε α) = Except.ok a := rfl

/-- Claim C10: `_parse_nodes` output comes only from `Document` nodes and
is exactly the in-order concatenation of the per-document results of the
dispatched algorithm (A when `has_article_pattern` holds, B otherwise). -/
theorem c10_parse_nodes_concat (nodes : List BaseNode) :
    _parse_nodes nodes =
      ((nodes.filterMap documentText).mapM dispatchDocument).map List.flatten := by
  induction nodes with
  | nil => rfl
  | cons n rest ih =>
    cases n with
    | other => simpa only [_parse_nodes, List.filterMap_cons, documentText] using ih
    | document t =>
      simp only [_parse_nodes, List.filterMap_cons, documentText]
      rw [List.mapM_cons]
      cases hA : has_article_pattern t with
      | true =>
        simp only [dispatchDocument, hA, if_true]
        cases hr : read_with_article_pattern t with
        | error e =>
          simp only [except_bind_error, except_map_error]
        | ok us =>
          rw [ih]
          cases hm : (rest.filterMap documentText).mapM dispatchDocument with
          | error e2 =>
            simp only [except_map_error, except_bind_ok, except_bind_error]
          | ok uss =>
            simp only [except_map_ok, except_bind_ok, except_pure_eq, List.flatten_cons]
      | false =>
        simp only [dispatchDocument, hA, if_false, Bool.false_eq_true]
        rw [ih]
        cases hm : (rest.filterMap documentText).mapM dispatchDocument with
        | error e2 =>
          simp only [except_map_error, except_bind_ok, except_bind_error]
        | ok uss =>
          simp only [except_map_ok, except_bind_ok, except_pure_eq, List.flatten_cons]

/-- Destructor for `Except.map` hitting `ok`: the mapped value was `ok`. -/
theorem except_map_eq_ok {ε : Type u} {α β : Type v} {e : Except ε α} {f : α → β} {b : β}
    (h : e.map f = Except.ok b) : ∃ a, e = Except.ok a ∧ f a = b := by
  cases e with
  | error er => rw [except_map_error] at h; cases h
  | ok a =>
    rw [except_map_ok] at h
    injection h with h2
    exact ⟨a, rfl, h2⟩

/-- The capture group returned by a marker pattern is a nonempty string of
recognized numeral glyphs. -/
theorem matchCore_num {space : Char → Bool} {marker : Char} {s num : String}
    (h : matchCore space marker s = some num) :
    num ≠ "" ∧ ∀ c ∈ num.data, isNumChar c = true := by
  rw [matchCore] at h
  split at h
  · next rest heq =>
    simp only [] at h
    split at h
    · cases h
    · next hne =>
      split at h
      · next c cs heq2 =>
        split at h
        · injection h with h3
          subst h3
          constructor
          · intro habs
            have : (rest.takeWhile isNumChar) = [] := congrArg String.data habs
            simp [this] at hne
          · intro c2 hc2
            exact List.mem_takeWhile_imp hc2
        · cases h
      · cases h
  · cases h

/-- Every glyph of the regex class `NUM_STR` is in `CHINESE_NUM_MAP`. -/
theorem chineseNumValue_isSome_of_isNumChar (c : Char) (h : isNumChar c = true) :
    (chineseNumValue c).isSome = true := by
  rw [isNumChar] at h
  have hm : c ∈ ['零', '一', '二', '三', '四', '五', '六', '七', '八', '九', '十', '百', '千'] := by
    simpa using h
  fin_cases hm <;> rfl

/-- The converter succeeds on any nonempty string of `NUM_STR` glyphs. -/
theorem convert_isSome_of_numeral {s : String} (hne : s ≠ "")
    (hall : ∀ c ∈ s.data, isNumChar c = true) :
    (convert_chinese_to_number s).isSome = true := by
  have hic : is_chinese_number s = true := by
    rw [is_chinese_number, List.all_eq_true]
    intro c hc
    exact chineseNumValue_isSome_of_isNumChar c (hall c hc)
  simp [convert_chinese_to_number, hne, hic]

/-- The stickiness chain only reads the four structural fields of its
anchor, so the anchor can be replaced by any unit sharing them. -/
theorem chain_head_fields {w : TextUnit} {l : List TextUnit}
    (h : List.Chain stickyRel w l) {u : TextUnit}
    (hp : u.part = w.part) (hc : u.chapter = w.chapter)
    (hs : u.sect = w.sect) (ha : u.article = w.article) : List.Chain stickyRel u l := by
  cases l with
  | nil => exact List.Chain.nil
  | cons v r =>
    rw [List.chain_cons] at h ⊢
    refine ⟨?_, h.2⟩
    have hr := h.1
    rw [stickyRel] at hr ⊢
    rw [hp, hc, hs, ha]
    exact hr

/-- Conversion of a marker pattern capture group never yields `none`,
so a structural field, once assigned, is `some`. -/
theorem convert_isSome_of_match {space : Char → Bool} {marker : Char} {s num : String}
    (h : matchCore space marker s = some num) :
    (convert_chinese_to_number num).isSome = true := by
  obtain ⟨hne, hall⟩ := matchCore_num h
  exact convert_isSome_of_numeral hne hall

/-- Stickiness invariant of the scan loop: from any state, the emitted
units form a `stickyRel` chain anchored at that state. -/
theorem loopA_sticky (lines : List String) :
    ∀ (fuel i : Nat) (st : SState) (out : List TextUnit),
      loopA lines fuel i st = Except.ok out → List.Chain stickyRel (stateUnit st) out := by
  intro fuel
  induction fuel with
  | zero =>
    intro i st out h
    rw [loopA] at h
    split at h
    · cases h
    · injection h with h2
      subst h2
      exact List.Chain.nil
  | succ fuel ih =>
    intro i st out h
    rw [loopA] at h
    split at h
    case isFalse =>
      injection h with h2
      subst h2
      exact List.Chain.nil
    case isTrue hi =>
      simp only [] at h
      split at h
      · -- blank: skipped, same state
        exact ih (i + 1) st out h
      · split at h
        case h_1 num hpm =>
          obtain ⟨r, hr, hout⟩ := except_map_eq_ok h
          subst hout
          rw [List.chain_cons]
          constructor
          · rw [stickyRel]
            refine ⟨Or.inr rfl, fun _ => ?_, Or.inl rfl, id, Or.inl rfl, id, Or.inl rfl, id⟩
            exact convert_isSome_of_match hpm
          · exact chain_head_fields (ih _ _ _ hr) rfl rfl rfl rfl
        case h_2 hpmn =>
          split at h
          case h_1 num hcm =>
            obtain ⟨r, hr, hout⟩ := except_map_eq_ok h
            subst hout
            rw [List.chain_cons]
            constructor
            · rw [stickyRel]
              refine ⟨Or.inl rfl, id, Or.inr rfl, fun _ => ?_, Or.inl rfl, id, Or.inl rfl, id⟩
              exact convert_isSome_of_match hcm
            · exact chain_head_fields (ih _ _ _ hr) rfl rfl rfl rfl
          case h_2 hcmn =>
            split at h
            case h_1 num hsm =>
              obtain ⟨r, hr, hout⟩ := except_map_eq_ok h
              subst hout
              rw [List.chain_cons]
              constructor
              · rw [stickyRel]
                refine ⟨Or.inl rfl, id, Or.inl rfl, id, Or.inr rfl, fun _ => ?_, Or.inl rfl, id⟩
                exact convert_isSome_of_match hsm
              · exact chain_head_fields (ih _ _ _ hr) rfl rfl rfl rfl
            case h_2 hsmn =>
              split at h
              case h_1 num ham =>
                split at h
                · split at h
                  · -- article with continuation
                    obtain ⟨r, hr, hout⟩ := except_map_eq_ok h
                    subst hout
                    rw [List.chain_cons]
                    constructor
                    · rw [stickyRel]
                      refine ⟨Or.inl rfl, id, Or.inl rfl, id, Or.inl rfl, id, Or.inr rfl, fun _ => ?_⟩
                      exact convert_isSome_of_match ham
                    · exact chain_head_fields (ih _ _ _ hr) rfl rfl rfl rfl
                  · cases h
                · -- article without continuation
                  obtain ⟨r, hr, hout⟩ := except_map_eq_ok h
                  subst hout
                  rw [List.chain_cons]
                  constructor
                  · rw [stickyRel]
                    refine ⟨Or.inl rfl, id, Or.inl rfl, id, Or.inl rfl, id, Or.inr rfl, fun _ => ?_⟩
                    exact convert_isSome_of_match ham
                  · exact chain_head_fields (ih _ _ _ hr) rfl rfl rfl rfl
              case h_2 hamn =>
                obtain ⟨r, hr, hout⟩ := except_map_eq_ok h
                subst hout
                rw [List.chain_cons]
                constructor
                · rw [stickyRel]
                  exact ⟨Or.inl rfl, id, Or.inl rfl, id, Or.inl rfl, id, Or.inl rfl, id⟩
                · exact chain_head_fields (ih _ _ _ hr) rfl rfl rfl rfl

/-- Destructor for `Except.map` hitting `error`: the mapped value was that
error. -/
theorem except_map_eq_error {ε : Type u} {α β : Type v} {e : Except ε α} {f : α → β} {err : ε}
    (h : e.map f = Except.error err) : e = Except.error err := by
  cases e with
  | error er =>
    rw [except_map_error] at h
    injection h with h2
    rw [h2]
  | ok a => rw [except_map_ok] at h; cases h

/-- The continuation loop never decreases `temp_index`. -/
theorem consumeGo_ge (tempText : String) (rest : List String) (acc : String) (tempIndex : Nat) :
    tempIndex ≤ (consumeGo tempText rest acc tempIndex).2 := by
  induction rest generalizing tempText acc tempIndex with
  | nil =>
    rw [consumeGo]
    split
    · exact Nat.le_succ tempIndex
    · exact Nat.le_refl tempIndex
  | cons next rest2 ihr =>
    rw [consumeGo]
    split
    · exact Nat.le_trans (Nat.le_succ tempIndex) (ihr next _ (tempIndex + 1))
    · exact Nat.le_refl tempIndex

/-- With fuel at least `lines.length - i` the scan never exhausts its
fuel: the fuel parameter is an artifact of the embedding, not a semantic
bound, and `read_with_article_pattern` supplies `lines.length`.  Hence an
`indexError` result faithfully reports the Python `IndexError`. -/
theorem loopA_no_fuel_error (lines : List String) :
    ∀ (fuel i : Nat) (st : SState), lines.length ≤ fuel + i →
      loopA lines fuel i st ≠ Except.error SplitErr.fuelExhausted := by
  intro fuel
  induction fuel with
  | zero =>
    intro i st hle h
    rw [loopA] at h
    split at h
    · next hi => omega
    · cases h
  | succ fuel ih =>
    intro i st hle h
    rw [loopA] at h
    split at h
    case isFalse => cases h
    case isTrue hi =>
    simp only [] at h
    split at h
    · exact ih (i + 1) st (by omega) h
    · split at h
      case h_1 num hpm => exact ih (i + 1) _ (by omega) (except_map_eq_error h)
      case h_2 =>
        split at h
        case h_1 num hcm => exact ih (i + 1) _ (by omega) (except_map_eq_error h)
        case h_2 =>
          split at h
          case h_1 num hsm => exact ih (i + 1) _ (by omega) (except_map_eq_error h)
          case h_2 =>
            split at h
            case h_1 num ham =>
              split at h
              · split at h
                · next h2 =>
                  have hge := consumeGo_ge (lines.getD (i + 1) "") (lines.drop (i + 2))
                    (stripIndent (lines.getD i "")) (i + 1)
                  exact ih _ _ (by omega) (except_map_eq_error h)
                · injection h with h3
                  cases h3
              · exact ih (i + 1) _ (by omega) (except_map_eq_error h)
            case h_2 => exact ih (i + 1) _ (by omega) (except_map_eq_error h)

/-- Claim C4: in Algorithm A, the four structural fields are sticky: in
the chain of emitted units (anchored at the initial all-`none` state),
each unit's `part`/`chapter`/`section`/`article` equals the previous
unit's unless this unit is the marker of that same level
(`content_type` 1/2/3/4), and a field that is `some` never reverts to
`none`. -/
theorem c4_sticky_fields (text : String) (out : List TextUnit)
    (h : read_with_article_pattern text = Except.ok out) :
    List.Chain stickyRel (stateUnit initState) out := by
  rw [read_with_article_pattern] at h
  exact loopA_sticky _ _ _ _ _ h

/-- Claim C4 witness: the theorem applied to the spec's sticky-state
example; the two article units both carry `chapter = 1` and articles 1
and 2. -/
theorem c4_witness :
    List.Chain stickyRel (stateUnit initState)
      [TextUnit.mk "第一章 总论" none (some 1) none none (some 2),
       TextUnit.mk "第一条 内容A" none (some 1) none (some 1) (some 4),
       TextUnit.mk "第二条 内容B" none (some 1) none (some 2) (some 4)] :=
  c4_sticky_fields "第一章 总论\n第一条 内容A\n第二条 内容B"
    [TextUnit.mk "第一章 总论" none (some 1) none none (some 2),
     TextUnit.mk "第一条 内容A" none (some 1) none (some 1) (some 4),
     TextUnit.mk "第二条 内容B" none (some 1) none (some 2) (some 4)] (by rfl)

/-- Claim C6 (amended): a non-blank line matching none of the four marker
patterns, reached at the top of Algorithm A's scan loop, is emitted as its
own unit whose text is the line itself and whose
`part`/`chapter`/`section`/`article` carry the previous values unchanged —
but whose `content_type` is reset to `none` by the per-iteration
`_content_type = None`, not carried from the last marker. -/
theorem c6_content_type_reset_amended (lines : List String) (fuel i : Nat) (st : SState)
    (hi : i < lines.length)
    (hb : clean_and_check_blank (lines.getD i "") = false)
    (hn : none_match (lines.getD i "") = true) :
    loopA lines (fuel + 1) i st =
      (loopA lines fuel (i + 1) st).map
        (TextUnit.mk (lines.getD i "") st.part st.chapter st.sect st.article none :: ·) := by
  rw [none_match, Bool.and_eq_true, Bool.and_eq_true, Bool.and_eq_true] at hn
  obtain ⟨⟨⟨h1, h2⟩, h3⟩, h4⟩ := hn
  rw [Option.isNone_iff_eq_none] at h1 h2 h3 h4
  rw [loopA, if_pos hi]
  simp only [hb, Bool.false_eq_true, if_false, h1, h2, h3, h4]

/-- Claim C6 witness: the amended theorem applied to the non-marker line
`你好` following a chapter marker that set `chapter = 1`. -/
theorem c6_witness :
    loopA ["第一章 总论", "你好"] 1 1 (SState.mk none (some 1) none none) =
      (loopA ["第一章 总论", "你好"] 0 2 (SState.mk none (some 1) none none)).map
        (TextUnit.mk "你好" none (some 1) none none none :: ·) :=
  c6_content_type_reset_amended ["第一章 总论", "你好"] 0 1 (SState.mk none (some 1) none none)
    (by decide) (by rfl) (by rfl)

/-- Claim C8 (amended): a line consisting solely of U+200B is treated as
blank and skipped by Algorithm A when reached at the top of its scan loop
(`clean_and_check_blank` strips zero-width characters); but Algorithm A
consumes such a line verbatim into an article body when it appears as
continuation text, and Algorithm B does not treat it as blank: it emits it
as its own unit. -/
theorem c8_zero_width_amended :
    (∀ (lines : List String) (fuel i : Nat) (st : SState),
      i < lines.length → lines.getD i "" = "​" →
        loopA lines (fuel + 1) i st = loopA lines fuel (i + 1) st) ∧
    read_without_article_pattern "​" = [TextUnit.mk "​" none none none none none] ∧
    read_with_article_pattern "第一条 甲\n​\n乙" =
      Except.ok [TextUnit.mk "第一条 甲\n​\n乙" none none none (some 1) (some 4)] := by
  refine ⟨?_, rfl, rfl⟩
  intro lines fuel i st hi hz
  rw [loopA, if_pos hi, hz]
  have hc : clean_and_check_blank "​" = true := rfl
  simp only [hc, if_true]

/-- Claim C8 witness: the amended theorem's Algorithm A part applied to a
singleton document consisting of the zero-width-space line. -/
theorem c8_witness :
    loopA ["​"] 1 0 initState = loopA ["​"] 0 1 initState :=
  c8_zero_width_amended.1 ["​"] 0 0 initState (by decide) (by rfl)
